import Mathlib

/-!
Verification development for the WinDev-Setup repository.

The repository consists of five Python scripts:
  * `winget_dev_installer.py` — installs a static table of Windows packages via winget,
  * `npm_dev_installer.py`    — installs a static table of npm packages globally,
  * `main.py`                 — orchestrator running the two installers as child processes,
  * `setup_profile.py`        — writes fastfetch config files and prepends an activation
                                snippet to the PowerShell profile,
  * `setup_dev_env.py`        — a unified variant of the two installers.

The definitions below are a shallow embedding of the control flow of these scripts.
External subprocess invocations are modelled by passing their observable results
(return code, stdout, or a timeout/exception marker) as explicit inputs; a `Nat`-indexed
environment function supplies one such result bundle per package, so the loop over the
static package table is a pure fold.  Python string operations (`in`, `.lower()`,
`.strip()`, `.split()`) are modelled by executable functions on `String`/`List Char`.
-/

namespace WinDevSetup

/-! ## Python string primitives -/

/-- Whitespace characters stripped by Python's `str.strip()` and split on by
`str.split()` with no arguments. -/
def pyIsSpace (c : Char) : Bool :=
  c == ' ' || c == '\t' || c == '\n' || c == '\r' || c == '\x0b' || c == '\x0c'

/-- Python `str.strip()`: remove leading and trailing whitespace. -/
def pyStrip (s : String) : String :=
  ⟨((s.toList.dropWhile pyIsSpace).reverse.dropWhile pyIsSpace).reverse⟩

/-- Python `str.lower()` (the identifiers involved are ASCII). -/
def pyLower (s : String) : String :=
  ⟨s.toList.map Char.toLower⟩

/-- Python `str.split()` with no argument: split on whitespace runs, dropping
empty pieces. -/
def pySplitWhitespace (s : String) : List String :=
  (s.split pyIsSpace).filter (fun t => !(t == ""))

/-- Does `needle` occur at the start of `hay`? -/
def charsPrefix : List Char → List Char → Bool
  | [], _ => true
  | _ :: _, [] => false
  | a :: as, b :: bs => a == b && charsPrefix as bs

/-- Does `needle` occur anywhere inside `hay`?  Models Python's `needle in hay`
for strings. -/
def charsContains (needle : List Char) : List Char → Bool
  | [] => charsPrefix needle []
  | hay@(_ :: t) => charsPrefix needle hay || charsContains needle t

/-- Python's substring test `needle in hay`. -/
def pyIn (needle hay : String) : Bool :=
  charsContains needle.toList hay.toList

/-- Python truthiness of an optional string (`None` and `""` are falsy). -/
def optTruthy : Option String → Bool
  | none => false
  | some s => !(s == "")

/-! ## External command results -/

/-- A completed subprocess (`subprocess.run` without `check=True`): observable
return code and captured output. -/
structure Completed where
  returncode : Int
  stdout : String
  stderr : String
deriving DecidableEq

/-- Outcome of a `subprocess.run` call guarded by a timeout inside a
`try/except` that catches `TimeoutExpired` and every other `Exception`
(`raised` covers `FileNotFoundError` for a missing external command as well as
any other exception). -/
inductive ActionOutcome where
  | completed (returncode : Int) (stderr : String)
  | timedOut
  | raised (msg : String)
deriving DecidableEq

/-- Outcome of the winget `search` call, which runs with `check=True` and
catches only `CalledProcessError`. -/
inductive SearchOutcome where
  | ok (stdout : String)
  | calledProcessError
deriving DecidableEq

/-- Outcome of a `--version` probe run with `check=True` inside a handler that
catches only `FileNotFoundError` (so `calledError` propagates). -/
inductive ProbeResult where
  | ok
  | notFound
  | calledError
deriving DecidableEq

/-- Outcome of spawning a child installer script from the orchestrator. -/
inductive ChildOutcome where
  | completed (returncode : Int)
  | timedOut
  | interrupted
  | raised (msg : String)
deriving DecidableEq

/-! ## Interactive prompts -/

/-- One event on standard input during a prompt: a line of text, or a
keyboard interrupt. -/
inductive InputEvent where
  | line (s : String)
  | interrupt
deriving DecidableEq

/-- One round of the shared yes/no prompt: `input().strip().lower()` compared
against the accepted tokens.  Returns `some` when the loop would return, `none`
when it would re-prompt.  This is the body of the `while True` loop that appears
verbatim in `prompt_user_for_package_update` (both installers), the
`--show-categories` confirmation, and `prompt_user_continue`. -/
def promptParse (lineText : String) : Option Bool :=
  let choice := pyLower (pyStrip lineText)
  if choice == "y" || choice == "yes" then some true
  else if choice == "n" || choice == "no" then some false
  else none

/-- The prompt loop over a stream of input events.  A keyboard interrupt is
caught and answered `false`; an undecided line causes a re-prompt; an exhausted
stream (`none`) models the loop never returning. -/
def promptLoop : List InputEvent → Option Bool
  | [] => none
  | InputEvent.interrupt :: _ => some false
  | InputEvent.line s :: rest =>
    match promptParse s with
    | some b => some b
    | none => promptLoop rest

/-- The spec's derived per-package state. -/
inductive PkgState where
  | NotInstalled
  | InstalledUpToDate
  | InstalledUpdateAvailable
deriving DecidableEq

/-! ## Run-outcome tally -/

/-- Which action sub-commands a single package-processing iteration invoked. -/
inductive Action where
  | installCmd
  | upgradeCmd
deriving DecidableEq

/-- The four tally buckets of the installers' main loops. -/
inductive Bucket where
  | installed
  | upgraded
  | skipped
  | failed
deriving DecidableEq

/-- Result of processing one package: the action sub-commands invoked and the
bucket the display name is appended to. -/
structure StepResult where
  actions : List Action
  bucket : Bucket
deriving DecidableEq

/-- The four accumulator lists of `install_all`
(`successful_installs`, `successful_upgrades`, `skipped_packages`,
`failed_installs`), in iteration order. -/
structure Tally where
  installed : List String
  upgraded : List String
  skipped : List String
  failed : List String
deriving DecidableEq

def emptyTally : Tally := ⟨[], [], [], []⟩

/-- Append one display name to the bucket chosen by the iteration. -/
def tallyAdd (t : Tally) (b : Bucket) (n : String) : Tally :=
  match b with
  | Bucket.installed => { t with installed := t.installed ++ [n] }
  | Bucket.upgraded => { t with upgraded := t.upgraded ++ [n] }
  | Bucket.skipped => { t with skipped := t.skipped ++ [n] }
  | Bucket.failed => { t with failed := t.failed ++ [n] }

/-- Total number of recorded display names. -/
def sumBuckets (t : Tally) : Nat :=
  t.installed.length + t.upgraded.length + t.skipped.length + t.failed.length

/-- All recorded display names, as a multiset. -/
def bucketMS (t : Tally) : Multiset String :=
  (t.installed : Multiset String) + (t.upgraded : Multiset String)
    + (t.skipped : Multiset String) + (t.failed : Multiset String)

/-- The `for package in self.packages` loop of `install_all`: process each item
in order, appending its display name to the bucket its step chose. -/
def runLoop {α : Type} (nameOf : α → String) (step : α → StepResult) :
    List α → Tally → Tally
  | [], t => t
  | x :: xs, t => runLoop nameOf step xs (tallyAdd t (step x).bucket (nameOf x))

/-- Pair each package with the observable results of the external commands its
iteration will run, supplied by a position-indexed environment. -/
def withEnvs {α β : Type} (f : Nat → β) : List α → Nat → List (α × β)
  | [], _ => []
  | x :: xs, i => (x, f i) :: withEnvs f xs (i + 1)

/-! ## winget_dev_installer.py -/

namespace WingetInstaller

/-- The `Package` dataclass of `winget_dev_installer.py`. -/
structure Package where
  name : String
  winget_id : String
  description : String
  verified_publisher : Bool := false
deriving DecidableEq

/-- The static package table built in `WingetInstaller.__init__`. -/
def packages : List Package := [
  ⟨"Visual Studio Code", "Microsoft.VisualStudioCode", "Code editor", true⟩,
  ⟨"Git", "Microsoft.Git", "Version control system", true⟩,
  ⟨"Python 3.12", "Python.Python.3.12", "Python programming language", true⟩,
  ⟨"Node.js", "OpenJS.NodeJS", "JavaScript runtime", true⟩,
  ⟨"Docker Desktop", "Docker.DockerDesktop", "Containerization platform", true⟩,
  ⟨"Google Chrome", "Google.Chrome", "Web browser", true⟩,
  ⟨"Brave Browser", "Brave.Brave", "Privacy-focused browser", true⟩,
  ⟨"VirtualBox", "Oracle.VirtualBox", "Virtual machine software", true⟩,
  ⟨"Claude Desktop", "Anthropic.Claude", "AI assistant desktop app", true⟩,
  ⟨"PowerToys", "Microsoft.PowerToys", "Windows system utilities", true⟩,
  ⟨"Windows Terminal", "Microsoft.WindowsTerminal", "Modern terminal", true⟩,
  ⟨"7-Zip", "7zip.7zip", "File archiver", true⟩,
  ⟨"Postman", "Postman.Postman", "API development tool", true⟩,
  ⟨"Discord", "Discord.Discord", "Communication platform", true⟩,
  ⟨"Slack", "SlackTechnologies.Slack", "Team communication", true⟩,
  ⟨"Notion", "Notion.Notion", "Note-taking and organization", true⟩,
  ⟨"OBS Studio", "OBSProject.OBSStudio", "Screen recording/streaming", true⟩]

/-- Case-insensitive containment test used throughout the winget installer:
`package.winget_id.lower() in output.lower()`. -/
def idInOutput (wingetId output : String) : Bool :=
  pyIn (pyLower wingetId) (pyLower output)

/-- Version-column parsing inside `check_package_installed_and_updatable`:
scan the lines of the `winget upgrade` output for the first one containing the
identifier, split it on whitespace, and take columns 1 and 2; both versions
default to the sentinel string when no line matches or the line is too short. -/
def parseVersions (wingetId stdoutText : String) : String × String :=
  match (stdoutText.splitOn "\n").find? (fun l => idInOutput wingetId l) with
  | some l =>
    let parts := pySplitWhitespace l
    if parts.length ≥ 3 then (parts[1]!, parts[2]!) else ("Unknown", "Unknown")
  | none => ("Unknown", "Unknown")

/-- The `(is_installed, current_version, available_version)` triple returned by
`check_package_installed_and_updatable`. -/
structure CheckResult where
  is_installed : Bool
  current_version : Option String
  available_version : Option String
deriving DecidableEq

/-- Model of `WingetInstaller.check_package_installed_and_updatable`, as a function of
the observable results of its two `winget` queries. -/
def check_package_installed_and_updatable (p : Package)
    (listRes upgradeRes : Completed) : CheckResult :=
  if !(listRes.returncode == 0 && idInOutput p.winget_id listRes.stdout) then
    ⟨false, none, none⟩
  else if upgradeRes.returncode == 0 && idInOutput p.winget_id upgradeRes.stdout then
    ⟨true, some (parseVersions p.winget_id upgradeRes.stdout).1,
      some (parseVersions p.winget_id upgradeRes.stdout).2⟩
  else
    ⟨true, none, none⟩

/-- Model of `WingetInstaller.search_package`: `winget search` runs with `check=True`;
a `CalledProcessError` yields `None`, otherwise the identifier is returned
exactly when it occurs (case-insensitively) in the output. -/
def search_package (p : Package) : SearchOutcome → Option String
  | SearchOutcome.ok stdoutText =>
    if idInOutput p.winget_id stdoutText then some p.winget_id else none
  | SearchOutcome.calledProcessError => none

/-- Model of `WingetInstaller.install_package`: success exactly when the `winget
install` call completes with return code 0; a timeout or any exception is
caught and reported as failure. -/
def install_package (_p : Package) : ActionOutcome → Bool
  | ActionOutcome.completed rc _ => rc == 0
  | ActionOutcome.timedOut => false
  | ActionOutcome.raised _ => false

/-- Model of `WingetInstaller.upgrade_package`: same catch structure as
`install_package`, for the `winget upgrade` call. -/
def upgrade_package (_p : Package) : ActionOutcome → Bool
  | ActionOutcome.completed rc _ => rc == 0
  | ActionOutcome.timedOut => false
  | ActionOutcome.raised _ => false

/-- Observable environment of one loop iteration of
`WingetInstaller.install_all`: the results of the `winget list` and
`winget upgrade` queries, the resolved answer of the update prompt (the
Boolean returned by `prompt_user_for_package_update`), the outcome of the
`winget search` verification, and the outcomes of the install/upgrade
actions, were they invoked. -/
structure PkgEnv where
  listRes : Completed
  upgradeRes : Completed
  answer : Bool
  searchRes : SearchOutcome
  installOutcome : ActionOutcome
  upgradeOutcome : ActionOutcome
deriving DecidableEq

/-- The derived per-package state of the spec's data model, exactly as the
branch structure of `install_all` distinguishes it:
`is_installed and available_version` (Python truthiness), then
`is_installed and not available_version`, else not installed. -/
def derivedState (p : Package) (e : PkgEnv) : PkgState :=
  let r := check_package_installed_and_updatable p e.listRes e.upgradeRes
  if r.is_installed && optTruthy r.available_version then
    PkgState.InstalledUpdateAvailable
  else if r.is_installed && !(optTruthy r.available_version) then
    PkgState.InstalledUpToDate
  else
    PkgState.NotInstalled

/-- One iteration of the `for` loop in `WingetInstaller.install_all`
(lines 261–300): branch on the check result, prompt/upgrade or
search/install, and classify the package into a bucket. -/
def step (skipSearch : Bool) (p : Package) (e : PkgEnv) : StepResult :=
  let r := check_package_installed_and_updatable p e.listRes e.upgradeRes
  if r.is_installed && optTruthy r.available_version then
    if e.answer then
      if upgrade_package p e.upgradeOutcome then
        ⟨[Action.upgradeCmd], Bucket.upgraded⟩
      else
        ⟨[Action.upgradeCmd], Bucket.failed⟩
    else
      ⟨[], Bucket.skipped⟩
  else if r.is_installed && !(optTruthy r.available_version) then
    ⟨[], Bucket.skipped⟩
  else
    if !skipSearch && (search_package p e.searchRes).isNone then
      ⟨[], Bucket.failed⟩
    else if install_package p e.installOutcome then
      ⟨[Action.installCmd], Bucket.installed⟩
    else
      ⟨[Action.installCmd], Bucket.failed⟩

/-- The whole tally-building loop of `install_all`, with the external results
of iteration `i` supplied by `f i`. -/
def loopTally (skipSearch : Bool) (f : Nat → PkgEnv) : Tally :=
  runLoop (fun x => x.1.name) (fun x => step skipSearch x.1 x.2)
    (withEnvs f packages 0) emptyTally

end WingetInstaller

/-! ## npm_dev_installer.py -/

namespace NpmInstaller

/-- The `NpmPackage` dataclass of `npm_dev_installer.py`. -/
structure NpmPackage where
  name : String
  package_name : String
  description : String
  category : String
deriving DecidableEq

/-- The static package table built in `NpmInstaller.__init__`. -/
def packages : List NpmPackage := [
  ⟨"Gemini CLI", "@google-ai/generativelanguage", "Google Gemini AI CLI tool", "AI Tools"⟩,
  ⟨"OpenAI CLI", "openai", "OpenAI API CLI tool", "AI Tools"⟩,
  ⟨"TypeScript", "typescript", "TypeScript compiler and language server", "Languages"⟩,
  ⟨"React CLI", "create-react-app", "Create React applications", "Frameworks"⟩,
  ⟨"Next.js CLI", "create-next-app", "Create Next.js applications", "Frameworks"⟩,
  ⟨"Vue CLI", "@vue/cli", "Vue.js development tools", "Frameworks"⟩,
  ⟨"Angular CLI", "@angular/cli", "Angular development CLI", "Frameworks"⟩,
  ⟨"Nodemon", "nodemon", "Auto-restart Node.js applications", "Development"⟩,
  ⟨"Live Server", "live-server", "Development server with live reload", "Development"⟩,
  ⟨"HTTP Server", "http-server", "Simple HTTP server", "Development"⟩,
  ⟨"JSON Server", "json-server", "Mock REST API server", "Development"⟩,
  ⟨"Concurrently", "concurrently", "Run multiple commands concurrently", "Development"⟩,
  ⟨"ESLint", "eslint", "JavaScript/TypeScript linter", "Code Quality"⟩,
  ⟨"Prettier", "prettier", "Code formatter", "Code Quality"⟩,
  ⟨"JSHint", "jshint", "JavaScript code quality tool", "Code Quality"⟩,
  ⟨"Standard", "standard", "JavaScript Standard Style", "Code Quality"⟩,
  ⟨"Webpack CLI", "webpack-cli", "Webpack bundler CLI", "Build Tools"⟩,
  ⟨"Vite", "vite", "Fast build tool", "Build Tools"⟩,
  ⟨"Parcel", "parcel", "Zero-config build tool", "Build Tools"⟩,
  ⟨"Rollup", "rollup", "Module bundler", "Build Tools"⟩,
  ⟨"Yarn", "yarn", "Fast package manager", "Package Management"⟩,
  ⟨"PNPM", "pnpm", "Efficient package manager", "Package Management"⟩,
  ⟨"NPX", "npx", "Package runner tool", "Package Management"⟩,
  ⟨"NP", "np", "Better npm publish", "Package Management"⟩,
  ⟨"Semantic Release", "semantic-release", "Automated package publishing", "Package Management"⟩,
  ⟨"Jest CLI", "jest", "JavaScript testing framework", "Testing"⟩,
  ⟨"Mocha", "mocha", "JavaScript test framework", "Testing"⟩,
  ⟨"Cypress", "cypress", "End-to-end testing", "Testing"⟩,
  ⟨"Playwright", "playwright", "Browser automation testing", "Testing"⟩,
  ⟨"Lodash CLI", "lodash-cli", "Lodash utility library CLI", "Utilities"⟩,
  ⟨"Moment CLI", "moment", "Date manipulation library", "Utilities"⟩,
  ⟨"Axios", "axios", "HTTP client library", "Utilities"⟩,
  ⟨"Chalk", "chalk", "Terminal string styling", "Utilities"⟩,
  ⟨"Commander", "commander", "Command-line interface builder", "Utilities"⟩,
  ⟨"MongoDB Tools", "mongodb", "MongoDB driver and tools", "Database"⟩,
  ⟨"Prisma CLI", "prisma", "Database toolkit", "Database"⟩,
  ⟨"GraphQL CLI", "graphql-cli", "GraphQL command line tool", "API Tools"⟩,
  ⟨"Apollo CLI", "@apollo/client", "GraphQL client", "API Tools"⟩,
  ⟨"Vercel CLI", "vercel", "Vercel deployment CLI", "Deployment"⟩,
  ⟨"Netlify CLI", "netlify-cli", "Netlify deployment CLI", "Deployment"⟩,
  ⟨"Firebase CLI", "firebase-tools", "Firebase development tools", "Deployment"⟩,
  ⟨"Heroku CLI", "heroku", "Heroku deployment CLI", "Deployment"⟩,
  ⟨"JSDoc", "jsdoc", "JavaScript documentation generator", "Documentation"⟩,
  ⟨"Storybook CLI", "@storybook/cli", "Component development environment", "Documentation"⟩,
  ⟨"Docusaurus", "@docusaurus/core", "Documentation website generator", "Documentation"⟩,
  ⟨"Lighthouse CLI", "lighthouse", "Web performance auditing", "Performance"⟩,
  ⟨"Bundlephobia CLI", "bundlephobia", "Bundle size analyzer", "Performance"⟩,
  ⟨"Speed Test CLI", "speed-test", "Internet speed test", "Performance"⟩]

/-- Current-version parsing inside `check_package_installed_and_updatable`:
the first line of the `npm list` output containing both the package name and
an `@` is split on `@` and the last piece is stripped; defaults to the
sentinel when no line matches. -/
def parseCurrentVersion (packageName stdoutText : String) : String :=
  match (stdoutText.splitOn "\n").find?
      (fun l => pyIn packageName l && pyIn "@" l) with
  | some l => pyStrip ((l.splitOn "@").getLast!)
  | none => "Unknown"

/-- Latest-version parsing from the `npm outdated` output: first line
containing the package name, whitespace-split, column 3; defaults to the
sentinel when no line matches or the line is too short. -/
def parseAvailableVersion (packageName stdoutText : String) : String :=
  match (stdoutText.splitOn "\n").find? (fun l => pyIn packageName l) with
  | some l =>
    let parts := pySplitWhitespace l
    if parts.length ≥ 4 then parts[3]! else "Unknown"
  | none => "Unknown"

/-- Model of `NpmInstaller.check_package_installed_and_updatable`, as a function of the
observable results of the `npm list -g` and `npm outdated -g` queries.  Note
the containment tests here are case-sensitive (plain Python `in`). -/
def check_package_installed_and_updatable (p : NpmPackage)
    (listRes outdatedRes : Completed) : WingetInstaller.CheckResult :=
  if !(listRes.returncode == 0 && pyIn p.package_name listRes.stdout) then
    ⟨false, none, none⟩
  else if outdatedRes.returncode == 0 && pyIn p.package_name outdatedRes.stdout then
    ⟨true, some (parseCurrentVersion p.package_name listRes.stdout),
      some (parseAvailableVersion p.package_name outdatedRes.stdout)⟩
  else
    ⟨true, some (parseCurrentVersion p.package_name listRes.stdout), none⟩

/-- Model of `NpmInstaller.install_package`: success exactly when `npm install -g`
completes with return code 0; timeouts and exceptions are caught and reported
as failure. -/
def install_package (_p : NpmPackage) : ActionOutcome → Bool
  | ActionOutcome.completed rc _ => rc == 0
  | ActionOutcome.timedOut => false
  | ActionOutcome.raised _ => false

/-- Model of `NpmInstaller.upgrade_package`: same catch structure, for `npm update -g`. -/
def upgrade_package (_p : NpmPackage) : ActionOutcome → Bool
  | ActionOutcome.completed rc _ => rc == 0
  | ActionOutcome.timedOut => false
  | ActionOutcome.raised _ => false

/-- Observable environment of one loop iteration of
`NpmInstaller.install_all`: results of the two queries, the resolved prompt
answer, and the outcomes of the install/upgrade actions. -/
structure PkgEnv where
  listRes : Completed
  outdatedRes : Completed
  answer : Bool
  installOutcome : ActionOutcome
  upgradeOutcome : ActionOutcome
deriving DecidableEq

/-- The derived per-package state, following the branch structure of the npm
`install_all` loop. -/
def derivedState (p : NpmPackage) (e : PkgEnv) : PkgState :=
  let r := check_package_installed_and_updatable p e.listRes e.outdatedRes
  if r.is_installed && optTruthy r.available_version then
    PkgState.InstalledUpdateAvailable
  else if r.is_installed && !(optTruthy r.available_version) then
    PkgState.InstalledUpToDate
  else
    PkgState.NotInstalled

/-- One iteration of the `for` loop in `NpmInstaller.install_all`
(lines 360–392): the same branch structure as the winget loop, but with no
pre-install search verification. -/
def step (p : NpmPackage) (e : PkgEnv) : StepResult :=
  let r := check_package_installed_and_updatable p e.listRes e.outdatedRes
  if r.is_installed && optTruthy r.available_version then
    if e.answer then
      if upgrade_package p e.upgradeOutcome then
        ⟨[Action.upgradeCmd], Bucket.upgraded⟩
      else
        ⟨[Action.upgradeCmd], Bucket.failed⟩
    else
      ⟨[], Bucket.skipped⟩
  else if r.is_installed && !(optTruthy r.available_version) then
    ⟨[], Bucket.skipped⟩
  else
    if install_package p e.installOutcome then
      ⟨[Action.installCmd], Bucket.installed⟩
    else
      ⟨[Action.installCmd], Bucket.failed⟩

/-- The whole tally-building loop of the npm `install_all`. -/
def loopTally (f : Nat → PkgEnv) : Tally :=
  runLoop (fun x => x.1.name) (fun x => step x.1 x.2)
    (withEnvs f packages 0) emptyTally

end NpmInstaller

/-! ## Script entry points

Each `main` is modelled as a function from the argument vector and an
environment of external results to a record of its observable behaviour:
process exit code (0 when the script runs to completion, 1 when an uncaught
exception terminates it), whether the usage text was printed, which external
commands ran before the `--help` check was reached, and the tally produced by
the main loop (empty when the loop did not run). -/

namespace WingetInstaller

/-- Environment of one run of `winget_dev_installer.py`: the result of the
`winget --version` availability check (`check_winget_available` catches both
failure modes and returns a Boolean), and the per-iteration results. -/
structure ScriptEnv where
  wingetAvailable : Bool
  pkgEnv : Nat → PkgEnv

/-- Observable behaviour of one run of the script. -/
structure ScriptRun where
  exitCode : Nat
  usagePrinted : Bool
  preHelpCalls : List (List String)
  ranLoop : Bool
  tally : Tally

/-- Model of `WingetInstaller.install_all`: returns early (processing nothing) when
winget is unavailable, otherwise runs the loop.  The `winget source update`
call catches its own failure and affects nothing. -/
def install_all (skipSearch : Bool) (env : ScriptEnv) : Bool × Tally :=
  if !env.wingetAvailable then (false, emptyTally)
  else (true, loopTally skipSearch env.pkgEnv)

/-- Model of `main()` in `winget_dev_installer.py`: constructing `WingetInstaller`
runs no external command, `--skip-search` is read from the arguments, and the
help branch returns before `install_all`.  The script never calls
`sys.exit`, so a completed run always exits 0. -/
def main (args : List String) (env : ScriptEnv) : ScriptRun :=
  let skipSearch := args.contains "--skip-search"
  if args.contains "--help" || args.contains "-h" then
    { exitCode := 0, usagePrinted := true, preHelpCalls := [],
      ranLoop := false, tally := emptyTally }
  else
    let r := install_all skipSearch env
    { exitCode := 0, usagePrinted := false, preHelpCalls := [],
      ranLoop := r.1, tally := r.2 }

end WingetInstaller

namespace NpmInstaller

/-- Environment of one run of `npm_dev_installer.py`: outcomes of the
constructor's `npm --version` / `npm.cmd --version` probes, the Boolean
results of `check_node_version` and `check_npm_available` (both catch their
own exceptions), the resolved answer of the `--show-categories` confirmation
prompt, and the per-iteration results. -/
structure ScriptEnv where
  npmProbe : ProbeResult
  npmCmdProbe : ProbeResult
  nodeOk : Bool
  npmAvailable : Bool
  categoriesConfirm : Bool
  pkgEnv : Nat → PkgEnv

/-- Crash predicate: `_get_npm_command` runs `npm --version` with `check=True` catching only
`FileNotFoundError`; on that error it retries with `npm.cmd`.  A
`CalledProcessError` from either probe is uncaught and crashes the script
inside the constructor. -/
def constructorCrashes (env : ScriptEnv) : Bool :=
  match env.npmProbe with
  | ProbeResult.calledError => true
  | ProbeResult.ok => false
  | ProbeResult.notFound =>
    match env.npmCmdProbe with
    | ProbeResult.calledError => true
    | _ => false

/-- The external commands the constructor's `_get_npm_command` invokes:
always the `npm` probe, plus the `npm.cmd` probe when the first raised
`FileNotFoundError`. -/
def probeCalls (env : ScriptEnv) : List (List String) :=
  [["npm", "--version"]] ++
    (match env.npmProbe with
     | ProbeResult.notFound => [["npm.cmd", "--version"]]
     | _ => [])

/-- Observable behaviour of one run of the script. -/
structure ScriptRun where
  crashed : Bool
  exitCode : Nat
  usagePrinted : Bool
  preHelpCalls : List (List String)
  ranLoop : Bool
  tally : Tally

/-- Model of `NpmInstaller.install_all`: returns early when node or npm is
unavailable, or when `--show-categories` was given and the confirmation
prompt was answered no (or interrupted); otherwise runs the loop. -/
def install_all (showCategories : Bool) (env : ScriptEnv) : Bool × Tally :=
  if !env.nodeOk || !env.npmAvailable then (false, emptyTally)
  else if showCategories && !env.categoriesConfirm then (false, emptyTally)
  else (true, loopTally env.pkgEnv)

/-- Model of `main()` in `npm_dev_installer.py`: the constructor (and with it the npm
version probes) runs before the help check; then `--show-categories`/`--list`
are read and either the usage text is printed or `install_all` runs.  A
completed run always exits 0. -/
def main (args : List String) (env : ScriptEnv) : ScriptRun :=
  if constructorCrashes env then
    { crashed := true, exitCode := 1, usagePrinted := false,
      preHelpCalls := probeCalls env, ranLoop := false, tally := emptyTally }
  else if args.contains "--help" || args.contains "-h" then
    { crashed := false, exitCode := 0, usagePrinted := true,
      preHelpCalls := probeCalls env, ranLoop := false, tally := emptyTally }
  else
    let showCategories := args.contains "--show-categories" || args.contains "--list"
    let r := install_all showCategories env
    { crashed := false, exitCode := 0, usagePrinted := false,
      preHelpCalls := probeCalls env, ranLoop := r.1, tally := r.2 }

end NpmInstaller

/-! ## main.py (orchestrator) -/

namespace MainOrchestrator

/-- Model of `DevEnvironmentInstaller.run_script`: every failure mode of the child
process — non-zero exit, the 3600-second timeout, a keyboard interrupt, or
any spawn exception — is caught and reported as `false`; success requires
return code 0. -/
def run_script : ChildOutcome → Bool
  | ChildOutcome.completed rc => rc == 0
  | ChildOutcome.timedOut => false
  | ChildOutcome.interrupted => false
  | ChildOutcome.raised _ => false

/-- Environment of one run of `main.py`: whether both installer scripts exist
next to it, the resolved answers of the two phase-confirmation prompts (the
Booleans returned by `prompt_user_continue`), and the outcome of each child
process, were it spawned. -/
structure OrchEnv where
  scriptsExist : Bool
  phase1Answer : Bool
  phase2Answer : Bool
  wingetOutcome : ChildOutcome
  npmOutcome : ChildOutcome
deriving DecidableEq

/-- Observable behaviour of `DevEnvironmentInstaller.install_all`: the
argument pair handed to `show_summary` (or `none` when the missing-scripts
early return skipped it), and which child scripts were spawned. -/
structure OrchResult where
  summaryShown : Option (Bool × Bool)
  spawned : List String
deriving DecidableEq

/-- Model of `DevEnvironmentInstaller.install_all` (lines 124–185): early return when
a script is missing; otherwise each phase is skipped by flag, declined at the
prompt, or run as a child process, and `show_summary` is always called with
the two phase-success Booleans. -/
def install_all (_skipWingetSearch _showNpmCategories skipWinget skipNpm : Bool)
    (env : OrchEnv) : OrchResult :=
  if !env.scriptsExist then ⟨none, []⟩
  else
    let winget_success :=
      if skipWinget then false
      else if env.phase1Answer then run_script env.wingetOutcome
      else false
    let spawned1 :=
      if !skipWinget && env.phase1Answer then ["winget_dev_installer.py"] else []
    let npm_success :=
      if skipNpm then false
      else if env.phase2Answer then run_script env.npmOutcome
      else false
    let spawned2 :=
      if !skipNpm && env.phase2Answer then ["npm_dev_installer.py"] else []
    ⟨some (winget_success, npm_success), spawned1 ++ spawned2⟩

/-- Observable behaviour of one run of `main.py`. -/
structure OrchRun where
  exitCode : Nat
  usagePrinted : Bool
  result : Option OrchResult
deriving DecidableEq

/-- Model of `main()` in `main.py`: flags are read, the help branch returns before the
installer object is even constructed, and otherwise `install_all` runs.  A
completed run always exits 0. -/
def main (args : List String) (env : OrchEnv) : OrchRun :=
  if args.contains "--help" || args.contains "-h" then
    ⟨0, true, none⟩
  else
    ⟨0, false, some (install_all (args.contains "--skip-winget-search")
      (args.contains "--show-npm-categories")
      (args.contains "--skip-winget") (args.contains "--skip-npm") env)⟩

end MainOrchestrator

/-! ## setup_profile.py (status-file generator)

Only the PowerShell-profile mutation (lines 149–195) is data-dependent; the
two config files are unconditionally overwritten with constant templates.
File contents are modelled as `List Char`. -/

namespace SetupProfile

/-- The marker substring whose absence triggers the prepend:
`'fastfetch -c' not in existing_content`. -/
def marker : List Char := "fastfetch -c".toList

/-- The activation snippet up to the interpolated config path (the Python
f-string after `.strip()`; braces are written escaped). -/
def snippetBeforePath : String :=
  "# Minimal profile: UTF‑8 + Oh My Posh (if installed) + Fastfetch with explicit config path\ntry \x7b\n    [Console]::InputEncoding  = [System.Text.Encoding]::UTF8\n    [Console]::OutputEncoding = [System.Text.Encoding]::UTF8\n    $OutputEncoding = [System.Text.UTF8Encoding]::new($false)\n    chcp 65001 > $null\n\x7d catch \x7b\x7d\n\nClear-Host\n\n# Force Fastfetch to use YOUR config every time (bypass path confusion)\nif (Get-Command fastfetch -ErrorAction SilentlyContinue) \x7b\n    fastfetch -c \""

/-- The activation snippet after the interpolated config path. -/
def snippetAfterPath : String :=
  "\"\n\x7d\noh-my-posh init pwsh | Invoke-Expression"

/-- Model of `profile_content_to_add`: the full activation snippet with the config
path interpolated. -/
def profile_content_to_add (configPath : List Char) : List Char :=
  snippetBeforePath.toList ++ configPath ++ snippetAfterPath.toList

/-- The guarded mutation of `main()` (lines 188–195): when the marker is
absent from the existing content, write the snippet, a blank line, then the
existing content; otherwise leave the file untouched. -/
def updateProfileContent (configPath existing : List Char) : List Char :=
  if !(charsContains marker existing) then
    profile_content_to_add configPath ++ ('\n' :: '\n' :: existing)
  else
    existing

/-- The whole profile step of `main()` (lines 157–195): an absent profile
file is first created empty, then the guarded mutation runs on its content. -/
def runProfileStep (configPath : List Char) (file : Option (List Char)) : List Char :=
  updateProfileContent configPath (match file with | none => [] | some c => c)

end SetupProfile

/-! ## Claim-level predicates and sample inputs -/

/-- The spec's failure taxonomy for an install/upgrade action: external
command not found or any other exception, non-zero exit code, or the
300-second timeout expiring. -/
def actionFailed : ActionOutcome → Bool
  | ActionOutcome.completed rc _ => !(rc == 0)
  | ActionOutcome.timedOut => true
  | ActionOutcome.raised _ => true

/-- A sample package (the first entry of the winget table). -/
def samplePkg : WingetInstaller.Package :=
  ⟨"Visual Studio Code", "Microsoft.VisualStudioCode", "Code editor", true⟩

/-- A sample npm package (the TypeScript entry of the npm table). -/
def sampleNpmPkg : NpmInstaller.NpmPackage :=
  ⟨"TypeScript", "typescript", "TypeScript compiler and language server", "Languages"⟩

/-- Iteration environment: the list query exits 1 (not installed), the
search verification returns empty output (identifier absent), and the
install action would succeed were it run. -/
def envNotInstalledSearchMiss : WingetInstaller.PkgEnv :=
  { listRes := ⟨1, "", ""⟩, upgradeRes := ⟨1, "", ""⟩, answer := false,
    searchRes := SearchOutcome.ok "",
    installOutcome := ActionOutcome.completed 0 "",
    upgradeOutcome := ActionOutcome.completed 0 "" }

/-- Iteration environment: not installed, and the install action times out. -/
def envInstallTimeout : WingetInstaller.PkgEnv :=
  { listRes := ⟨1, "", ""⟩, upgradeRes := ⟨1, "", ""⟩, answer := false,
    searchRes := SearchOutcome.ok "",
    installOutcome := ActionOutcome.timedOut,
    upgradeOutcome := ActionOutcome.completed 0 "" }

/-- Npm iteration environment: not installed, install would succeed. -/
def npmEnvNotInstalled : NpmInstaller.PkgEnv :=
  { listRes := ⟨1, "", ""⟩, outdatedRes := ⟨1, "", ""⟩, answer := false,
    installOutcome := ActionOutcome.completed 0 "",
    upgradeOutcome := ActionOutcome.completed 0 "" }

/-- A winget script environment for concrete runs. -/
def wingetScriptEnvSample : WingetInstaller.ScriptEnv :=
  { wingetAvailable := true, pkgEnv := fun _ => envNotInstalledSearchMiss }

/-- An npm script environment whose probes succeed. -/
def npmScriptEnvOk : NpmInstaller.ScriptEnv :=
  { npmProbe := ProbeResult.ok, npmCmdProbe := ProbeResult.ok, nodeOk := true,
    npmAvailable := true, categoriesConfirm := true,
    pkgEnv := fun _ => npmEnvNotInstalled }

/-- An orchestrator environment with both scripts present, phase 1 declined
and phase 2 timing out. -/
def orchEnvSample : MainOrchestrator.OrchEnv :=
  ⟨true, false, true, ChildOutcome.completed 2, ChildOutcome.timedOut⟩

/-- Sample query results: installed (identifier echoed by the list query),
no update line. -/
def listResInstalled : Completed := ⟨0, "Microsoft.VisualStudioCode", ""⟩

/-- Sample query result: upgrade query exits 1 with empty output. -/
def upgradeResNone : Completed := ⟨1, "", ""⟩

/-! ## Helper lemmas on the string primitives -/

theorem charsPrefix_append (n a b : List Char) (h : charsPrefix n a = true) :
    charsPrefix n (a ++ b) = true := by
  induction n generalizing a with
  | nil => simp [charsPrefix]
  | cons c cs ih =>
    cases a with
    | nil => simp [charsPrefix] at h
    | cons d ds =>
      simp [charsPrefix] at h ⊢
      exact ⟨h.1, ih ds h.2⟩

theorem charsContains_append_left (n a b : List Char)
    (h : charsContains n a = true) : charsContains n (a ++ b) = true := by
  induction a with
  | nil =>
    cases n with
    | nil => cases b <;> simp [charsContains, charsPrefix]
    | cons c cs => simp [charsContains, charsPrefix] at h
  | cons d ds ih =>
    simp only [List.cons_append, charsContains, Bool.or_eq_true] at h ⊢
    rcases h with h | h
    · exact Or.inl (charsPrefix_append _ _ _ h)
    · exact Or.inr (ih h)

set_option maxRecDepth 40000 in
/-- The marker occurs in the snippet's fixed head. -/
theorem marker_in_snippet_head :
    charsContains SetupProfile.marker SetupProfile.snippetBeforePath.toList = true := by
  decide

/-- The marker occurs in the snippet followed by anything. -/
theorem marker_in_snippet (configPath rest : List Char) :
    charsContains SetupProfile.marker
      (SetupProfile.profile_content_to_add configPath ++ rest) = true := by
  have h := charsContains_append_left SetupProfile.marker
    SetupProfile.snippetBeforePath.toList
    (configPath ++ (SetupProfile.snippetAfterPath.toList ++ rest))
    marker_in_snippet_head
  simpa [SetupProfile.profile_content_to_add, List.append_assoc] using h

/-! ## Helper lemmas on the tally loop -/

theorem sumBuckets_tallyAdd (t : Tally) (b : Bucket) (n : String) :
    sumBuckets (tallyAdd t b n) = sumBuckets t + 1 := by
  cases b <;> simp [tallyAdd, sumBuckets] <;> omega

theorem runLoop_sum {α : Type} (nameOf : α → String) (step : α → StepResult)
    (items : List α) (t : Tally) :
    sumBuckets (runLoop nameOf step items t) = sumBuckets t + items.length := by
  induction items generalizing t with
  | nil => simp [runLoop]
  | cons x xs ih =>
    simp only [runLoop, ih, sumBuckets_tallyAdd, List.length_cons]
    omega

theorem bucketMS_tallyAdd (t : Tally) (b : Bucket) (n : String) :
    bucketMS (tallyAdd t b n) = bucketMS t + ([n] : List String) := by
  cases b <;>
    (simp only [tallyAdd, bucketMS, ← Multiset.coe_add]; abel)

theorem runLoop_ms {α : Type} (nameOf : α → String) (step : α → StepResult)
    (items : List α) (t : Tally) :
    bucketMS (runLoop nameOf step items t) =
      bucketMS t + ((items.map nameOf : List String) : Multiset String) := by
  induction items generalizing t with
  | nil => simp [runLoop]
  | cons x xs ih =>
    rw [runLoop, ih, bucketMS_tallyAdd, List.map_cons]
    have h : ((nameOf x :: xs.map nameOf : List String) : Multiset String)
        = (([nameOf x] : List String) : Multiset String)
          + ((xs.map nameOf : List String) : Multiset String) := by
      rw [Multiset.coe_add, List.singleton_append]
    rw [h, add_assoc]

theorem tallyAdd_failed (t : Tally) (b : Bucket) (n : String) :
    (tallyAdd t b n).failed =
      t.failed ++ (if b == Bucket.failed then [n] else []) := by
  cases b <;> simp [tallyAdd, beq_iff_eq]

theorem runLoop_failed {α : Type} (nameOf : α → String) (step : α → StepResult)
    (items : List α) (t : Tally) :
    (runLoop nameOf step items t).failed =
      t.failed ++
        (items.filter (fun x => (step x).bucket == Bucket.failed)).map nameOf := by
  induction items generalizing t with
  | nil => simp [runLoop]
  | cons x xs ih =>
    rw [runLoop, ih, tallyAdd_failed, List.filter_cons]
    cases h : (step x).bucket == Bucket.failed <;> simp [h]

theorem withEnvs_length {α β : Type} (f : Nat → β) (l : List α) (i : Nat) :
    (withEnvs f l i).length = l.length := by
  induction l generalizing i with
  | nil => simp [withEnvs]
  | cons x xs ih => simp [withEnvs, ih]

theorem withEnvs_map_name {α β : Type} (f : Nat → β) (nm : α → String)
    (l : List α) (i : Nat) :
    (withEnvs f l i).map (fun x => nm x.1) = l.map nm := by
  induction l generalizing i with
  | nil => simp [withEnvs]
  | cons x xs ih => simp [withEnvs, ih]

/-! ## Characterization of the per-package step functions -/

/-- The winget loop body as a function of the derived package state. -/
theorem wingetStep_cases (skipSearch : Bool) (p : WingetInstaller.Package)
    (e : WingetInstaller.PkgEnv) :
    WingetInstaller.step skipSearch p e =
      match WingetInstaller.derivedState p e with
      | PkgState.InstalledUpdateAvailable =>
        if e.answer then
          if WingetInstaller.upgrade_package p e.upgradeOutcome then
            ⟨[Action.upgradeCmd], Bucket.upgraded⟩
          else
            ⟨[Action.upgradeCmd], Bucket.failed⟩
        else
          ⟨[], Bucket.skipped⟩
      | PkgState.InstalledUpToDate => ⟨[], Bucket.skipped⟩
      | PkgState.NotInstalled =>
        if !skipSearch && (WingetInstaller.search_package p e.searchRes).isNone then
          ⟨[], Bucket.failed⟩
        else if WingetInstaller.install_package p e.installOutcome then
          ⟨[Action.installCmd], Bucket.installed⟩
        else
          ⟨[Action.installCmd], Bucket.failed⟩ := by
  unfold WingetInstaller.step WingetInstaller.derivedState
  cases h1 : (WingetInstaller.check_package_installed_and_updatable p
      e.listRes e.upgradeRes).is_installed &&
      optTruthy (WingetInstaller.check_package_installed_and_updatable p
        e.listRes e.upgradeRes).available_version with
  | true => simp [h1]
  | false =>
    cases h2 : (WingetInstaller.check_package_installed_and_updatable p
        e.listRes e.upgradeRes).is_installed &&
        !(optTruthy (WingetInstaller.check_package_installed_and_updatable p
          e.listRes e.upgradeRes).available_version) with
    | true => simp [h1, h2]
    | false => simp [h1, h2]

/-- The npm loop body as a function of the derived package state. -/
theorem npmStep_cases (p : NpmInstaller.NpmPackage) (e : NpmInstaller.PkgEnv) :
    NpmInstaller.step p e =
      match NpmInstaller.derivedState p e with
      | PkgState.InstalledUpdateAvailable =>
        if e.answer then
          if NpmInstaller.upgrade_package p e.upgradeOutcome then
            ⟨[Action.upgradeCmd], Bucket.upgraded⟩
          else
            ⟨[Action.upgradeCmd], Bucket.failed⟩
        else
          ⟨[], Bucket.skipped⟩
      | PkgState.InstalledUpToDate => ⟨[], Bucket.skipped⟩
      | PkgState.NotInstalled =>
        if NpmInstaller.install_package p e.installOutcome then
          ⟨[Action.installCmd], Bucket.installed⟩
        else
          ⟨[Action.installCmd], Bucket.failed⟩ := by
  unfold NpmInstaller.step NpmInstaller.derivedState
  cases h1 : (NpmInstaller.check_package_installed_and_updatable p
      e.listRes e.outdatedRes).is_installed &&
      optTruthy (NpmInstaller.check_package_installed_and_updatable p
        e.listRes e.outdatedRes).available_version with
  | true => simp [h1]
  | false =>
    cases h2 : (NpmInstaller.check_package_installed_and_updatable p
        e.listRes e.outdatedRes).is_installed &&
        !(optTruthy (NpmInstaller.check_package_installed_and_updatable p
          e.listRes e.outdatedRes).available_version) with
    | true => simp [h1, h2]
    | false => simp [h1, h2]

/-- Winget loop body in the NotInstalled state. -/
theorem wingetStep_of_notInstalled (ss : Bool) (p : WingetInstaller.Package)
    (e : WingetInstaller.PkgEnv)
    (h : WingetInstaller.derivedState p e = PkgState.NotInstalled) :
    WingetInstaller.step ss p e =
      if !ss && (WingetInstaller.search_package p e.searchRes).isNone then
        ⟨[], Bucket.failed⟩
      else if WingetInstaller.install_package p e.installOutcome then
        ⟨[Action.installCmd], Bucket.installed⟩
      else
        ⟨[Action.installCmd], Bucket.failed⟩ := by
  have hc := wingetStep_cases ss p e
  rw [h] at hc
  exact hc

/-- Winget loop body in the InstalledUpdateAvailable state. -/
theorem wingetStep_of_updateAvailable (ss : Bool) (p : WingetInstaller.Package)
    (e : WingetInstaller.PkgEnv)
    (h : WingetInstaller.derivedState p e = PkgState.InstalledUpdateAvailable) :
    WingetInstaller.step ss p e =
      if e.answer then
        if WingetInstaller.upgrade_package p e.upgradeOutcome then
          ⟨[Action.upgradeCmd], Bucket.upgraded⟩
        else
          ⟨[Action.upgradeCmd], Bucket.failed⟩
      else
        ⟨[], Bucket.skipped⟩ := by
  have hc := wingetStep_cases ss p e
  rw [h] at hc
  exact hc

/-- Winget loop body in the InstalledUpToDate state. -/
theorem wingetStep_of_upToDate (ss : Bool) (p : WingetInstaller.Package)
    (e : WingetInstaller.PkgEnv)
    (h : WingetInstaller.derivedState p e = PkgState.InstalledUpToDate) :
    WingetInstaller.step ss p e = ⟨[], Bucket.skipped⟩ := by
  have hc := wingetStep_cases ss p e
  rw [h] at hc
  exact hc

/-- Npm loop body in the NotInstalled state. -/
theorem npmStep_of_notInstalled (p : NpmInstaller.NpmPackage)
    (e : NpmInstaller.PkgEnv)
    (h : NpmInstaller.derivedState p e = PkgState.NotInstalled) :
    NpmInstaller.step p e =
      if NpmInstaller.install_package p e.installOutcome then
        ⟨[Action.installCmd], Bucket.installed⟩
      else
        ⟨[Action.installCmd], Bucket.failed⟩ := by
  have hc := npmStep_cases p e
  rw [h] at hc
  exact hc

/-- Npm loop body in the InstalledUpdateAvailable state. -/
theorem npmStep_of_updateAvailable (p : NpmInstaller.NpmPackage)
    (e : NpmInstaller.PkgEnv)
    (h : NpmInstaller.derivedState p e = PkgState.InstalledUpdateAvailable) :
    NpmInstaller.step p e =
      if e.answer then
        if NpmInstaller.upgrade_package p e.upgradeOutcome then
          ⟨[Action.upgradeCmd], Bucket.upgraded⟩
        else
          ⟨[Action.upgradeCmd], Bucket.failed⟩
      else
        ⟨[], Bucket.skipped⟩ := by
  have hc := npmStep_cases p e
  rw [h] at hc
  exact hc

/-- Npm loop body in the InstalledUpToDate state. -/
theorem npmStep_of_upToDate (p : NpmInstaller.NpmPackage)
    (e : NpmInstaller.PkgEnv)
    (h : NpmInstaller.derivedState p e = PkgState.InstalledUpToDate) :
    NpmInstaller.step p e = ⟨[], Bucket.skipped⟩ := by
  have hc := npmStep_cases p e
  rw [h] at hc
  exact hc

/-! ## Claim theorems -/

/-- Claim C3: the status-file generator's mutation of the shell startup file
is idempotent — the activation snippet is prepended (followed by a blank
line) exactly when the marker substring is absent, so a second run leaves the
startup file unchanged and the snippet is never inserted twice. -/
theorem c3_profile_idempotent (configPath : List Char) (file : Option (List Char)) :
    SetupProfile.runProfileStep configPath
        (some (SetupProfile.runProfileStep configPath file))
      = SetupProfile.runProfileStep configPath file := by
  unfold SetupProfile.runProfileStep
  cases h : charsContains SetupProfile.marker
      (match file with | none => ([] : List Char) | some c => c) with
  | true => simp [SetupProfile.updateProfileContent, h]
  | false => simp [SetupProfile.updateProfileContent, h, marker_in_snippet]

/-- Claim C9: when the marker is absent the generator prepends the snippet
and a blank line, preserving the prior startup-file content verbatim as a
suffix; when the marker is present the content is left byte-for-byte
unchanged. -/
theorem c9_profile_frame (configPath existing : List Char) :
    (charsContains SetupProfile.marker existing = false →
        SetupProfile.updateProfileContent configPath existing
          = SetupProfile.profile_content_to_add configPath ++ ('\n' :: '\n' :: existing)
        ∧ List.IsSuffix existing (SetupProfile.updateProfileContent configPath existing))
    ∧ (charsContains SetupProfile.marker existing = true →
        SetupProfile.updateProfileContent configPath existing = existing) := by
  constructor
  · intro h
    constructor
    · simp [SetupProfile.updateProfileContent, h]
    · refine ⟨SetupProfile.profile_content_to_add configPath ++ ['\n', '\n'], ?_⟩
      simp [SetupProfile.updateProfileContent, h]
  · intro h
    simp [SetupProfile.updateProfileContent, h]

/-- Witness for C9 at concrete inputs: an empty profile gets the snippet and
a blank line prepended, and a profile already containing the marker is left
unchanged. -/
theorem c9_witness :
    SetupProfile.updateProfileContent [] []
        = SetupProfile.profile_content_to_add [] ++ ('\n' :: '\n' :: [])
    ∧ SetupProfile.updateProfileContent [] SetupProfile.marker = SetupProfile.marker := by
  constructor
  · exact ((c9_profile_frame [] []).1 (by decide)).1
  · exact (c9_profile_frame [] SetupProfile.marker).2 (by decide)

/-- Claim C10: every yes/no prompt (the shared `input().strip().lower()`
loop of both installers and the orchestrator) accepts an input line as yes
(resp. no) exactly when the line with surrounding whitespace stripped and
lowercased equals a yes (resp. no) token, and re-prompts on any other
line. -/
theorem c10_prompt_tolerance (s : String) (rest : List InputEvent) :
    (promptParse s = some true
        ↔ (pyLower (pyStrip s) = "y" ∨ pyLower (pyStrip s) = "yes"))
    ∧ (promptParse s = some false
        ↔ (pyLower (pyStrip s) = "n" ∨ pyLower (pyStrip s) = "no"))
    ∧ (promptParse s = none →
        promptLoop (InputEvent.line s :: rest) = promptLoop rest)
    ∧ (∀ b : Bool, promptParse s = some b →
        promptLoop (InputEvent.line s :: rest) = some b) := by
  refine ⟨?_, ?_, ?_, ?_⟩
  · simp only [promptParse]
    by_cases hy : (pyLower (pyStrip s) == "y" || pyLower (pyStrip s) == "yes") = true
    · rw [if_pos hy]
      simp only [Bool.or_eq_true, beq_iff_eq] at hy
      exact iff_of_true rfl hy
    · rw [if_neg hy]
      simp only [Bool.or_eq_true, beq_iff_eq] at hy
      by_cases hn : (pyLower (pyStrip s) == "n" || pyLower (pyStrip s) == "no") = true
      · rw [if_pos hn]
        exact iff_of_false (by simp) hy
      · rw [if_neg hn]
        exact iff_of_false (by simp) hy
  · simp only [promptParse]
    by_cases hy : (pyLower (pyStrip s) == "y" || pyLower (pyStrip s) == "yes") = true
    · rw [if_pos hy]
      simp only [Bool.or_eq_true, beq_iff_eq] at hy
      rcases hy with h | h <;> rw [h] <;> simp
    · rw [if_neg hy]
      by_cases hn : (pyLower (pyStrip s) == "n" || pyLower (pyStrip s) == "no") = true
      · rw [if_pos hn]
        simp only [Bool.or_eq_true, beq_iff_eq] at hn
        exact iff_of_true rfl hn
      · rw [if_neg hn]
        simp only [Bool.or_eq_true, beq_iff_eq, not_or] at hn
        exact iff_of_false (by simp) (by simpa [not_or] using hn)
  · intro h
    simp [promptLoop, h]
  · intro b h
    simp [promptLoop, h]

/-- Witness for C10: an undecided line re-prompts, then a padded uppercase
yes is accepted. -/
theorem c10_witness :
    promptLoop [InputEvent.line "ok?", InputEvent.line "  YES "] = some true := by
  rw [(c10_prompt_tolerance "ok?" [InputEvent.line "  YES "]).2.2.1 (by decide)]
  exact (c10_prompt_tolerance "  YES " []).2.2.2 true (by decide)

/-- Claim C8: each iteration of an installer's main loop appends the
package's display name to exactly one of the four buckets, so the bucket
sizes sum to the length of the static package list and the recorded names
are, as a multiset, exactly the display names of that list. -/
theorem c8_tally_partition (skipSearch : Bool)
    (wf : Nat → WingetInstaller.PkgEnv) (nf : Nat → NpmInstaller.PkgEnv) :
    sumBuckets (WingetInstaller.loopTally skipSearch wf)
        = WingetInstaller.packages.length
    ∧ bucketMS (WingetInstaller.loopTally skipSearch wf)
        = ((WingetInstaller.packages.map WingetInstaller.Package.name
            : List String) : Multiset String)
    ∧ sumBuckets (NpmInstaller.loopTally nf) = NpmInstaller.packages.length
    ∧ bucketMS (NpmInstaller.loopTally nf)
        = ((NpmInstaller.packages.map NpmInstaller.NpmPackage.name
            : List String) : Multiset String) := by
  refine ⟨?_, ?_, ?_, ?_⟩
  · rw [WingetInstaller.loopTally, runLoop_sum, withEnvs_length]
    simp [sumBuckets, emptyTally]
  · rw [WingetInstaller.loopTally, runLoop_ms, withEnvs_map_name]
    simp [bucketMS, emptyTally]
  · rw [NpmInstaller.loopTally, runLoop_sum, withEnvs_length]
    simp [sumBuckets, emptyTally]
  · rw [NpmInstaller.loopTally, runLoop_ms, withEnvs_map_name]
    simp [bucketMS, emptyTally]

/-- Claim C1 as stated is false on the winget installer: at this concrete
input the derived state is NotInstalled, yet no install sub-command runs —
the default-on search verification fails (empty search output) and the
package is recorded as failed without any action. -/
theorem c1_counterexample :
    WingetInstaller.derivedState samplePkg envNotInstalledSearchMiss
        = PkgState.NotInstalled
    ∧ (WingetInstaller.step false samplePkg envNotInstalledSearchMiss).actions = []
    ∧ Action.installCmd ∉
        (WingetInstaller.step false samplePkg envNotInstalledSearchMiss).actions
    ∧ (WingetInstaller.step false samplePkg envNotInstalledSearchMiss).bucket
        = Bucket.failed := by
  refine ⟨by decide, by decide, by decide, by decide⟩

/-- Claim C1 (amended): the action is determined by the derived state, the
answer, and — in the winget installer — the search verification.  NotInstalled
never triggers upgrade; it triggers exactly the install sub-command unless the
winget search verification is enabled and fails, in which case no action runs
and the package is recorded as failed.  InstalledUpdateAvailable with answer
yes triggers exactly the upgrade sub-command, recorded under upgraded when the
upgrade succeeds and under failed otherwise (never under installed); with
answer no, and likewise for InstalledUpToDate, no action runs and the package
is recorded as skipped.  The npm installer has no search, so NotInstalled
always triggers exactly the install sub-command. -/
theorem c1_step_actions (ss : Bool) (p : WingetInstaller.Package)
    (e : WingetInstaller.PkgEnv) (q : NpmInstaller.NpmPackage)
    (ne : NpmInstaller.PkgEnv) :
    (WingetInstaller.derivedState p e = PkgState.NotInstalled →
        Action.upgradeCmd ∉ (WingetInstaller.step ss p e).actions
        ∧ ((ss = true ∨ (WingetInstaller.search_package p e.searchRes).isSome = true) →
            (WingetInstaller.step ss p e).actions = [Action.installCmd])
        ∧ (ss = false → WingetInstaller.search_package p e.searchRes = none →
            (WingetInstaller.step ss p e).actions = []
            ∧ (WingetInstaller.step ss p e).bucket = Bucket.failed))
    ∧ (WingetInstaller.derivedState p e = PkgState.InstalledUpdateAvailable →
        e.answer = true →
        (WingetInstaller.step ss p e).actions = [Action.upgradeCmd]
        ∧ (WingetInstaller.upgrade_package p e.upgradeOutcome = true →
            (WingetInstaller.step ss p e).bucket = Bucket.upgraded)
        ∧ (WingetInstaller.upgrade_package p e.upgradeOutcome = false →
            (WingetInstaller.step ss p e).bucket = Bucket.failed)
        ∧ (WingetInstaller.step ss p e).bucket ≠ Bucket.installed)
    ∧ (WingetInstaller.derivedState p e = PkgState.InstalledUpdateAvailable →
        e.answer = false →
        (WingetInstaller.step ss p e).actions = []
        ∧ (WingetInstaller.step ss p e).bucket = Bucket.skipped)
    ∧ (WingetInstaller.derivedState p e = PkgState.InstalledUpToDate →
        (WingetInstaller.step ss p e).actions = []
        ∧ (WingetInstaller.step ss p e).bucket = Bucket.skipped)
    ∧ (NpmInstaller.derivedState q ne = PkgState.NotInstalled →
        (NpmInstaller.step q ne).actions = [Action.installCmd])
    ∧ (NpmInstaller.derivedState q ne = PkgState.InstalledUpdateAvailable →
        ne.answer = true →
        (NpmInstaller.step q ne).actions = [Action.upgradeCmd]
        ∧ (NpmInstaller.upgrade_package q ne.upgradeOutcome = true →
            (NpmInstaller.step q ne).bucket = Bucket.upgraded)
        ∧ (NpmInstaller.upgrade_package q ne.upgradeOutcome = false →
            (NpmInstaller.step q ne).bucket = Bucket.failed)
        ∧ (NpmInstaller.step q ne).bucket ≠ Bucket.installed)
    ∧ (NpmInstaller.derivedState q ne = PkgState.InstalledUpdateAvailable →
        ne.answer = false →
        (NpmInstaller.step q ne).actions = []
        ∧ (NpmInstaller.step q ne).bucket = Bucket.skipped)
    ∧ (NpmInstaller.derivedState q ne = PkgState.InstalledUpToDate →
        (NpmInstaller.step q ne).actions = []
        ∧ (NpmInstaller.step q ne).bucket = Bucket.skipped) := by
  refine ⟨?_, ?_, ?_, ?_, ?_, ?_, ?_, ?_⟩
  · intro h
    rw [wingetStep_of_notInstalled ss p e h]
    refine ⟨?_, ?_, ?_⟩
    · split
      · simp
      · split <;> simp
    · intro hs
      rcases hs with hs | hs
      · have hc : (!ss && (WingetInstaller.search_package p e.searchRes).isNone) = false := by
          rw [hs]; rfl
        rw [if_neg (by simp [hc])]
        split <;> rfl
      · have hc : (WingetInstaller.search_package p e.searchRes).isNone = false := by
          cases hx : WingetInstaller.search_package p e.searchRes with
          | none => rw [hx] at hs; simp at hs
          | some v => rfl
        rw [if_neg (by simp [hc])]
        split <;> rfl
    · intro hss hnone
      rw [hss, hnone]
      simp
  · intro h ha
    rw [wingetStep_of_updateAvailable ss p e h, ha]
    simp only [if_true]
    refine ⟨?_, ?_, ?_, ?_⟩
    · split <;> rfl
    · intro hu; rw [hu]; rfl
    · intro hu; rw [hu]; rfl
    · split <;> simp
  · intro h ha
    rw [wingetStep_of_updateAvailable ss p e h, ha]
    simp
  · intro h
    rw [wingetStep_of_upToDate ss p e h]
    simp
  · intro h
    rw [npmStep_of_notInstalled q ne h]
    split <;> rfl
  · intro h ha
    rw [npmStep_of_updateAvailable q ne h, ha]
    simp only [if_true]
    refine ⟨?_, ?_, ?_, ?_⟩
    · split <;> rfl
    · intro hu; rw [hu]; rfl
    · intro hu; rw [hu]; rfl
    · split <;> simp
  · intro h ha
    rw [npmStep_of_updateAvailable q ne h, ha]
    simp
  · intro h
    rw [npmStep_of_upToDate q ne h]
    simp

/-- Witness for C1 (amended) at concrete inputs: with the search skipped a
not-installed winget package gets exactly the install sub-command, and a
not-installed npm package does too. -/
theorem c1_witness :
    (WingetInstaller.step true samplePkg envNotInstalledSearchMiss).actions
        = [Action.installCmd]
    ∧ (NpmInstaller.step sampleNpmPkg npmEnvNotInstalled).actions
        = [Action.installCmd] := by
  have h := c1_step_actions true samplePkg envNotInstalledSearchMiss
    sampleNpmPkg npmEnvNotInstalled
  exact ⟨(h.1 (by decide)).2.1 (Or.inl rfl), h.2.2.2.2.1 (by decide)⟩

/-- Claim C2: every failure of an install/upgrade action (command not found
or other exception, non-zero exit, or the 300-second timeout) is caught at
the call, the package is recorded as failed, and the loop continues: the
failed bucket of a whole run holds exactly the display names of the packages
whose own step failed, in order. -/
theorem c2_failures_recorded (ss : Bool) (p : WingetInstaller.Package)
    (e : WingetInstaller.PkgEnv) (q : NpmInstaller.NpmPackage)
    (ne : NpmInstaller.PkgEnv) (wf : Nat → WingetInstaller.PkgEnv)
    (nf : Nat → NpmInstaller.PkgEnv) :
    (actionFailed e.installOutcome = true →
        WingetInstaller.install_package p e.installOutcome = false)
    ∧ (actionFailed e.upgradeOutcome = true →
        WingetInstaller.upgrade_package p e.upgradeOutcome = false)
    ∧ (WingetInstaller.derivedState p e = PkgState.NotInstalled →
        (ss = true ∨ (WingetInstaller.search_package p e.searchRes).isSome = true) →
        actionFailed e.installOutcome = true →
        (WingetInstaller.step ss p e).bucket = Bucket.failed)
    ∧ (WingetInstaller.derivedState p e = PkgState.InstalledUpdateAvailable →
        e.answer = true → actionFailed e.upgradeOutcome = true →
        (WingetInstaller.step ss p e).bucket = Bucket.failed)
    ∧ (NpmInstaller.derivedState q ne = PkgState.NotInstalled →
        actionFailed ne.installOutcome = true →
        (NpmInstaller.step q ne).bucket = Bucket.failed)
    ∧ (NpmInstaller.derivedState q ne = PkgState.InstalledUpdateAvailable →
        ne.answer = true → actionFailed ne.upgradeOutcome = true →
        (NpmInstaller.step q ne).bucket = Bucket.failed)
    ∧ (WingetInstaller.loopTally ss wf).failed =
        ((withEnvs wf WingetInstaller.packages 0).filter
            (fun x => (WingetInstaller.step ss x.1 x.2).bucket == Bucket.failed)).map
          (fun x => x.1.name)
    ∧ (NpmInstaller.loopTally nf).failed =
        ((withEnvs nf NpmInstaller.packages 0).filter
            (fun x => (NpmInstaller.step x.1 x.2).bucket == Bucket.failed)).map
          (fun x => x.1.name) := by
  have hfail : ∀ o : ActionOutcome, actionFailed o = true →
      (match o with
        | ActionOutcome.completed rc _ => rc == 0
        | ActionOutcome.timedOut => false
        | ActionOutcome.raised _ => false) = false := by
    intro o ho
    cases o with
    | completed rc st =>
      simp only [actionFailed, Bool.not_eq_true'] at ho
      exact ho
    | timedOut => rfl
    | raised m => rfl
  refine ⟨?_, ?_, ?_, ?_, ?_, ?_, ?_, ?_⟩
  · intro ho
    exact hfail e.installOutcome ho
  · intro ho
    exact hfail e.upgradeOutcome ho
  · intro h hs ho
    rw [wingetStep_of_notInstalled ss p e h]
    have hi : WingetInstaller.install_package p e.installOutcome = false :=
      hfail e.installOutcome ho
    rcases hs with hs | hs
    · have hc : (!ss && (WingetInstaller.search_package p e.searchRes).isNone) = false := by
        rw [hs]; rfl
      rw [if_neg (by simp [hc]), if_neg (by simp [hi])]
    · have hc : (WingetInstaller.search_package p e.searchRes).isNone = false := by
        cases hx : WingetInstaller.search_package p e.searchRes with
        | none => rw [hx] at hs; simp at hs
        | some v => rfl
      rw [if_neg (by simp [hc]), if_neg (by simp [hi])]
  · intro h ha ho
    rw [wingetStep_of_updateAvailable ss p e h, ha]
    have hu : WingetInstaller.upgrade_package p e.upgradeOutcome = false :=
      hfail e.upgradeOutcome ho
    simp [hu]
  · intro h ho
    rw [npmStep_of_notInstalled q ne h]
    have hi : NpmInstaller.install_package q ne.installOutcome = false :=
      hfail ne.installOutcome ho
    rw [if_neg (by simp [hi])]
  · intro h ha ho
    rw [npmStep_of_updateAvailable q ne h, ha]
    have hu : NpmInstaller.upgrade_package q ne.upgradeOutcome = false :=
      hfail ne.upgradeOutcome ho
    simp [hu]
  · rw [WingetInstaller.loopTally, runLoop_failed]
    simp [emptyTally]
  · rw [NpmInstaller.loopTally, runLoop_failed]
    simp [emptyTally]

/-- Witness for C2 at concrete inputs: a timed-out install lands the package
in the failed bucket. -/
theorem c2_witness :
    (WingetInstaller.step true samplePkg envInstallTimeout).bucket = Bucket.failed := by
  have h := c2_failures_recorded true samplePkg envInstallTimeout
    sampleNpmPkg npmEnvNotInstalled (fun _ => envInstallTimeout)
    (fun _ => npmEnvNotInstalled)
  exact h.2.2.1 (by decide) (Or.inl rfl) (by decide)

/-- Claim C4: the installed-state query classifies a package as NotInstalled
exactly when the list query exits non-zero or the identifier text is absent
from its output; otherwise the package is installed and the availability of
an update is exactly what the upgrade/outdated query reports. -/
theorem c4_installed_classification (p : WingetInstaller.Package)
    (lr ur : Completed) (e : WingetInstaller.PkgEnv)
    (q : NpmInstaller.NpmPackage) (nlr nor : Completed) :
    ((WingetInstaller.check_package_installed_and_updatable p lr ur).is_installed = false
        ↔ (lr.returncode ≠ 0 ∨ WingetInstaller.idInOutput p.winget_id lr.stdout = false))
    ∧ ((WingetInstaller.check_package_installed_and_updatable p lr ur).is_installed = true →
        (WingetInstaller.check_package_installed_and_updatable p lr ur).available_version.isSome
          = (ur.returncode == 0 && WingetInstaller.idInOutput p.winget_id ur.stdout))
    ∧ (WingetInstaller.derivedState p e = PkgState.NotInstalled
        ↔ (WingetInstaller.check_package_installed_and_updatable p
            e.listRes e.upgradeRes).is_installed = false)
    ∧ ((NpmInstaller.check_package_installed_and_updatable q nlr nor).is_installed = false
        ↔ (nlr.returncode ≠ 0 ∨ pyIn q.package_name nlr.stdout = false))
    ∧ ((NpmInstaller.check_package_installed_and_updatable q nlr nor).is_installed = true →
        (NpmInstaller.check_package_installed_and_updatable q nlr nor).available_version.isSome
          = (nor.returncode == 0 && pyIn q.package_name nor.stdout)) := by
  refine ⟨?_, ?_, ?_, ?_, ?_⟩
  · unfold WingetInstaller.check_package_installed_and_updatable
    cases h1 : (lr.returncode == 0) with
    | true =>
      cases h2 : WingetInstaller.idInOutput p.winget_id lr.stdout with
      | true =>
        rw [if_neg (by simp [h1, h2])]
        split <;> simp [beq_iff_eq] at h1 <;> simp [h1, h2]
      | false =>
        rw [if_pos (by simp [h2])]
        simp [h2]
    | false =>
      rw [if_pos (by simp [h1])]
      simp only [beq_eq_false_iff_ne] at h1
      simp [h1]
  · intro h
    unfold WingetInstaller.check_package_installed_and_updatable at h ⊢
    cases h0 : (lr.returncode == 0 && WingetInstaller.idInOutput p.winget_id lr.stdout) with
    | false => rw [if_pos (by simp [h0])] at h; simp at h
    | true =>
      rw [if_neg (by simp [h0])]
      cases h2 : (ur.returncode == 0 && WingetInstaller.idInOutput p.winget_id ur.stdout) with
      | true => rw [if_pos (by simp [h2])]; rfl
      | false => rw [if_neg (by simp [h2])]; rfl
  · unfold WingetInstaller.derivedState
    cases hi : (WingetInstaller.check_package_installed_and_updatable p
        e.listRes e.upgradeRes).is_installed with
    | true =>
      cases ha : optTruthy (WingetInstaller.check_package_installed_and_updatable p
          e.listRes e.upgradeRes).available_version with
      | true => simp [hi, ha]
      | false => simp [hi, ha]
    | false => simp [hi]
  · unfold NpmInstaller.check_package_installed_and_updatable
    cases h1 : (nlr.returncode == 0) with
    | true =>
      cases h2 : pyIn q.package_name nlr.stdout with
      | true =>
        rw [if_neg (by simp [h1, h2])]
        split <;> simp [beq_iff_eq] at h1 <;> simp [h1, h2]
      | false =>
        rw [if_pos (by simp [h2])]
        simp [h2]
    | false =>
      rw [if_pos (by simp [h1])]
      simp only [beq_eq_false_iff_ne] at h1
      simp [h1]
  · intro h
    unfold NpmInstaller.check_package_installed_and_updatable at h ⊢
    cases h0 : (nlr.returncode == 0 && pyIn q.package_name nlr.stdout) with
    | false => rw [if_pos (by simp [h0])] at h; simp at h
    | true =>
      rw [if_neg (by simp [h0])]
      cases h2 : (nor.returncode == 0 && pyIn q.package_name nor.stdout) with
      | true => rw [if_pos (by simp [h2])]; rfl
      | false => rw [if_neg (by simp [h2])]; rfl

/-- Witness for C4 at concrete inputs: an installed package whose upgrade
query exits 1 with empty output is reported with no available version. -/
theorem c4_witness :
    (WingetInstaller.check_package_installed_and_updatable samplePkg
        listResInstalled upgradeResNone).available_version.isSome
      = (upgradeResNone.returncode == 0
          && WingetInstaller.idInOutput samplePkg.winget_id upgradeResNone.stdout) := by
  exact (c4_installed_classification samplePkg listResInstalled upgradeResNone
    envNotInstalledSearchMiss sampleNpmPkg listResInstalled upgradeResNone).2.1
    (by decide)

/-- Claim C5: both installer scripts exit 0 on every completed run — package
failures only populate the printed tally, never the exit code; a non-zero
exit happens only when a run crashes (an uncaught top-level exception, which
for the npm script the constructor's probe can raise). -/
theorem c5_exit_codes (wargs nargs : List String)
    (we : WingetInstaller.ScriptEnv) (ne : NpmInstaller.ScriptEnv) :
    (WingetInstaller.main wargs we).exitCode = 0
    ∧ (NpmInstaller.main nargs ne).exitCode
        = (if (NpmInstaller.main nargs ne).crashed then 1 else 0) := by
  constructor
  · unfold WingetInstaller.main
    split <;> rfl
  · unfold NpmInstaller.main
    split
    · rfl
    · split <;> rfl

/-- Claim C6: whenever both installer scripts are present, the orchestrator's
`install_all` reaches `show_summary` for every combination of prompt answers,
skip flags, and child-process outcomes. -/
theorem c6_summary_always (a b c d : Bool) (env : MainOrchestrator.OrchEnv)
    (h : env.scriptsExist = true) :
    (MainOrchestrator.install_all a b c d env).summaryShown.isSome = true := by
  unfold MainOrchestrator.install_all
  rw [if_neg (by simp [h])]
  rfl

/-- Witness for C6 at a concrete environment: phase 1 declined, phase 2
timed out, summary still shown. -/
theorem c6_witness :
    (MainOrchestrator.install_all false false false false orchEnvSample).summaryShown.isSome
      = true :=
  c6_summary_always false false false false orchEnvSample rfl

/-- Claim C7 as stated is false on the npm installer: with `--help` the
usage text is printed and the exit code is 0, but an external command has
already been invoked — the constructor probes `npm --version` before the
help check. -/
theorem c7_counterexample :
    (NpmInstaller.main ["--help"] npmScriptEnvOk).usagePrinted = true
    ∧ (NpmInstaller.main ["--help"] npmScriptEnvOk).exitCode = 0
    ∧ (NpmInstaller.main ["--help"] npmScriptEnvOk).preHelpCalls
        = [["npm", "--version"]]
    ∧ (NpmInstaller.main ["--help"] npmScriptEnvOk).preHelpCalls ≠ [] := by
  refine ⟨by decide, by decide, by decide, by decide⟩

/-- Claim C7 (amended): with `--help` or `-h`, the winget installer and the
orchestrator print the usage text and exit 0 with no external command run
and no package action taken; the npm installer also prints the usage text,
exits 0 and takes no package action (provided its constructor's probe does
not crash the script), but it always runs the npm version probe(s) first. -/
theorem c7_help_behaviour (args : List String) (we : WingetInstaller.ScriptEnv)
    (ne : NpmInstaller.ScriptEnv) (oe : MainOrchestrator.OrchEnv)
    (h : (args.contains "--help" || args.contains "-h") = true) :
    ((WingetInstaller.main args we).exitCode = 0
      ∧ (WingetInstaller.main args we).usagePrinted = true
      ∧ (WingetInstaller.main args we).preHelpCalls = []
      ∧ (WingetInstaller.main args we).ranLoop = false
      ∧ (WingetInstaller.main args we).tally = emptyTally)
    ∧ ((MainOrchestrator.main args oe).exitCode = 0
      ∧ (MainOrchestrator.main args oe).usagePrinted = true
      ∧ (MainOrchestrator.main args oe).result = none)
    ∧ (NpmInstaller.constructorCrashes ne = false →
        (NpmInstaller.main args ne).exitCode = 0
        ∧ (NpmInstaller.main args ne).usagePrinted = true
        ∧ (NpmInstaller.main args ne).ranLoop = false
        ∧ (NpmInstaller.main args ne).tally = emptyTally
        ∧ (NpmInstaller.main args ne).preHelpCalls = NpmInstaller.probeCalls ne) := by
  refine ⟨?_, ?_, ?_⟩
  · unfold WingetInstaller.main
    rw [if_pos h]
    exact ⟨rfl, rfl, rfl, rfl, rfl⟩
  · unfold MainOrchestrator.main
    rw [if_pos h]
    exact ⟨rfl, rfl, rfl⟩
  · intro hc
    unfold NpmInstaller.main
    rw [if_neg (by simp [hc]), if_pos h]
    exact ⟨rfl, rfl, rfl, rfl, rfl⟩

/-- Witness for C7 (amended) at concrete inputs. -/
theorem c7_witness :
    (WingetInstaller.main ["-h"] wingetScriptEnvSample).usagePrinted = true
    ∧ (NpmInstaller.main ["-h"] npmScriptEnvOk).preHelpCalls
        = NpmInstaller.probeCalls npmScriptEnvOk := by
  have h := c7_help_behaviour ["-h"] wingetScriptEnvSample npmScriptEnvOk
    orchEnvSample (by decide)
  exact ⟨h.1.2.1, (h.2.2 (by decide)).2.2.2.2⟩

end WinDevSetup
